import Mathlib

/-!
Verification of the Bitmovin `BatchEncoding` example and the shared
`ConfigProvider` (Python sources `src/batch_encoding.py` and
`common/config_provider.py`).

The Python code is embedded shallowly: Python strings become `String`
(or `List Char` where character-level slicing matters), Python dicts
become association lists, the remote Bitmovin API is abstracted by
oracles (an outcome per start call, a `Task` per status poll), and
in-place mutation of job objects becomes explicit state passing over
the dispatcher's job list.
-/

namespace Bitmovin

/-! ## Data model of `batch_encoding.py` -/

/-- `EncodingJobStatus` enum (WAITING = 0, STARTED = 1, SUCCESSFUL = 2, GIVEN_UP = 3). -/
inductive EncodingJobStatus where
  | WAITING
  | STARTED
  | SUCCESSFUL
  | GIVEN_UP
deriving DecidableEq, Repr

/-- `Status` enum of the Bitmovin SDK, as far as the example inspects it. -/
inductive TaskStatus where
  | CREATED
  | QUEUED
  | RUNNING
  | FINISHED
  | ERROR
  | CANCELED
  | TRANSFER_ERROR
deriving DecidableEq, Repr

/-- `RetryHint` enum of the Bitmovin SDK. -/
inductive RetryHint where
  | RETRY
  | NO_RETRY
  | RETRY_IN_DIFFERENT_REGION
deriving DecidableEq, Repr

/-- `MessageType` enum of the Bitmovin SDK, as far as the example inspects it. -/
inductive MessageType where
  | INFO
  | ERROR
  | WARNING
  | DEBUG
deriving DecidableEq, Repr

/-- A message attached to a status `Task` (fields `type` and `text`). -/
structure Message where
  typ : MessageType
  text : String
deriving DecidableEq, Repr

/-- The error object optionally attached to a `Task` (`task.error`);
`task.error` being `None` in Python is `none` here. -/
structure TaskError where
  retry_hint : RetryHint
deriving DecidableEq, Repr

/-- The result of `bitmovin_api.encoding.encodings.status(encoding_id)`. -/
structure Task where
  status : TaskStatus
  error : Option TaskError
  messages : List Message
deriving DecidableEq, Repr

/-- Outcome of one `bitmovin_api.encoding.encodings.start(...)` call:
either it succeeds, or it raises `BitmovinError` with an `error_code`
and a `message`. -/
inductive StartOutcome where
  | ok
  | err (error_code : Nat) (message : String)
deriving DecidableEq, Repr

/-- An entry of `job.error_messages`.  The Python list is heterogeneous:
`_start_encodings` appends a single string (line 161) while
`_update_encoding_job` appends a whole list of strings (lines 226/233). -/
inductive ErrorEntry where
  | text (s : String)
  | texts (ts : List String)
deriving DecidableEq, Repr

/-- `EncodingJob.__init__`: config values plus mutable tracking state. -/
structure EncodingJob where
  input_file_path : String
  output_path : String
  encoding_name : String
  status : EncodingJobStatus
  encoding_id : String
  retry_count : Nat
  error_messages : List ErrorEntry
deriving DecidableEq, Repr

/-- `target_queue_size = 3`. -/
def target_queue_size : Nat := 3

/-- `max_retries = 2`. -/
def max_retries : Nat := 2

/-- `number_of_encodings = 7` (local of `JobDispatcher.__init__`). -/
def number_of_encodings : Nat := 7

/-- Two-argument `os.path.join` (POSIX semantics), as used for
`output_path_=path.join(input_file_path, encoding_name)`. -/
def path_join (a b : String) : String :=
  if b.startsWith "/" then b
  else if a = "" ∨ a.endsWith "/" then a ++ b
  else a ++ "/" ++ b

/-- `EncodingJob.__init__(input_file_path_, output_path_, encoding_name_)`:
status starts `WAITING`, `encoding_id` empty, `retry_count` 0,
`error_messages` empty. -/
def EncodingJob.init (input_file_path_ output_path_ encoding_name_ : String) : EncodingJob :=
  { input_file_path := input_file_path_
    output_path := output_path_
    encoding_name := encoding_name_
    status := EncodingJobStatus.WAITING
    encoding_id := ""
    retry_count := 0
    error_messages := [] }

/-- `JobDispatcher`: holds the list `encoding_jobs`. -/
structure JobDispatcher where
  encoding_jobs : List EncodingJob
deriving DecidableEq, Repr

/-- `JobDispatcher.__init__`: `for i in range(1, number_of_encodings)`
appends one job per `i`; `range(1, n)` yields `n - 1` values `1, ..., n-1`,
mirrored by `List.range' 1 (number_of_encodings - 1)`. -/
def JobDispatcher.init (input_file_path : String) : JobDispatcher :=
  { encoding_jobs :=
      (List.range' 1 (number_of_encodings - 1)).map (fun i =>
        let encoding_name := "encoding" ++ toString i
        EncodingJob.init input_file_path (path_join input_file_path encoding_name)
          encoding_name) }

/-- `JobDispatcher.get_jobs_to_start(limit)`: the `WAITING` jobs, in
list order, truncated to `limit` (`[job for job in ... if WAITING][:limit]`). -/
def JobDispatcher.get_jobs_to_start (d : JobDispatcher) (limit : Nat) : List EncodingJob :=
  (d.encoding_jobs.filter (fun job => job.status == EncodingJobStatus.WAITING)).take limit

/-- `JobDispatcher.get_started_jobs()`. -/
def JobDispatcher.get_started_jobs (d : JobDispatcher) : List EncodingJob :=
  d.encoding_jobs.filter (fun job => job.status == EncodingJobStatus.STARTED)

/-- `JobDispatcher.all_jobs_finished()`: true iff the list of jobs that are
`WAITING` or `STARTED` has length 0. -/
def JobDispatcher.all_jobs_finished (d : JobDispatcher) : Bool :=
  (d.encoding_jobs.filter (fun job =>
    job.status == EncodingJobStatus.WAITING || job.status == EncodingJobStatus.STARTED)).length == 0

/-! ## Operations of the dispatch/poll loop -/

/-- The `if not job.encoding_id:` block of `_start_encodings`: a job with an
empty `encoding_id` gets the id of a freshly created encoding. -/
def assign_encoding_id (job : EncodingJob) (new_id : String) : EncodingJob :=
  if job.encoding_id = "" then { job with encoding_id := new_id } else job

/-- The body of the `for job in jobs_to_start:` loop of `_start_encodings`
for one job, given the outcome of its start call.  On success the job
becomes `STARTED`; `BitmovinError` 8004 leaves the job untouched (the
caller then aborts the batch); any other error increments `retry_count`
and, once `retry_count > max_retries`, marks the job `GIVEN_UP` and
records the error message. -/
def start_one (job : EncodingJob) (new_id : String) (r : StartOutcome) : EncodingJob :=
  let job := assign_encoding_id job new_id
  match r with
  | StartOutcome.ok => { job with status := EncodingJobStatus.STARTED }
  | StartOutcome.err code msg =>
    if code = 8004 then job
    else
      let job := { job with retry_count := job.retry_count + 1 }
      if max_retries < job.retry_count then
        { job with status := EncodingJobStatus.GIVEN_UP
                   error_messages := job.error_messages ++
                     [ErrorEntry.text ("The encoding could not be started: " ++ msg)] }
      else job

/-- `_is_retryable_error(task)`:
`task.status == Status.ERROR and task.error and task.error.retry_hint is not RetryHint.NO_RETRY`. -/
def is_retryable_error (task : Task) : Bool :=
  task.status == TaskStatus.ERROR &&
    (match task.error with
     | none => false
     | some e => !(e.retry_hint == RetryHint.NO_RETRY))

/-- `_get_error_messages(task)`: the texts of the task's messages of type
`ERROR`; `[]` when `task` is `None`. -/
def get_error_messages (task : Option Task) : List String :=
  match task with
  | none => []
  | some t => (t.messages.filter (fun x => x.typ == MessageType.ERROR)).map Message.text

/-- `_update_encoding_job(job)`, with the polled `Task` made explicit.
`FINISHED` marks the job `SUCCESSFUL`; `ERROR` with a non-retryable
classification marks it `GIVEN_UP` immediately; otherwise the retry
budget is checked (`retry_count > max_retries` gives up), else
`retry_count` is incremented and the job reset to `WAITING`.  Any other
task status leaves the job unchanged. -/
def update_encoding_job (job : EncodingJob) (task : Task) : EncodingJob :=
  if task.status = TaskStatus.FINISHED then
    { job with status := EncodingJobStatus.SUCCESSFUL }
  else if task.status = TaskStatus.ERROR then
    if !(is_retryable_error task) then
      { job with status := EncodingJobStatus.GIVEN_UP
                 error_messages := job.error_messages ++
                   [ErrorEntry.texts (get_error_messages (some task))] }
    else if max_retries < job.retry_count then
      { job with status := EncodingJobStatus.GIVEN_UP
                 error_messages := job.error_messages ++
                   [ErrorEntry.texts (get_error_messages (some task))] }
    else
      { job with retry_count := job.retry_count + 1
                 status := EncodingJobStatus.WAITING }
  else job

/-- Whether a start outcome is the `BitmovinError` with `error_code` 8004
("platform queue limit exceeded"), on which `_start_encodings` returns early. -/
def is_queue_limit (r : StartOutcome) : Bool :=
  match r with
  | StartOutcome.ok => false
  | StartOutcome.err code _ => code == 8004

/-- `_start_encodings(jobs_to_start, ...)` merged with the selection
`get_jobs_to_start(free_slots)` into one pass over the dispatcher's job
list: among the `WAITING` jobs in order, the first `budget` are started
(each consuming its entry of the start oracle `env`), and an 8004 error
aborts the rest of the batch (`return`).  Jobs that are not `WAITING`,
or beyond the budget, are untouched. -/
def start_phase (budget : Nat) (env : List (String × StartOutcome)) :
    List EncodingJob → List EncodingJob
  | [] => []
  | job :: rest =>
    if job.status = EncodingJobStatus.WAITING then
      match budget, env with
      | 0, _ => job :: rest
      | _ + 1, [] => job :: rest
      | b + 1, (new_id, r) :: env' =>
        if is_queue_limit r then start_one job new_id r :: rest
        else start_one job new_id r :: start_phase b env' rest
    else job :: start_phase budget env rest

/-- The `for job in job_dispatcher.get_started_jobs(): _update_encoding_job(job)`
pass: each `STARTED` job consumes the next polled `Task` of the oracle. -/
def poll_phase (tasks : List Task) : List EncodingJob → List EncodingJob
  | [] => []
  | job :: rest =>
    if job.status = EncodingJobStatus.STARTED then
      match tasks with
      | [] => job :: poll_phase [] rest
      | t :: ts => update_encoding_job job t :: poll_phase ts rest
    else job :: poll_phase tasks rest

/-- One iteration of the `while not job_dispatcher.all_jobs_finished():`
loop of `main`: compute `free_slots = target_queue_size - queued`, start
jobs if slots are free, then poll every (now) `STARTED` job. -/
def loop_iteration (queued : Nat) (env : List (String × StartOutcome))
    (tasks : List Task) (jobs : List EncodingJob) : List EncodingJob :=
  let free_slots := target_queue_size - queued
  let jobs1 := if 0 < free_slots then start_phase free_slots env jobs else jobs
  poll_phase tasks jobs1

/-! ## Data model of `common/config_provider.py`

Python dicts become association lists (a dict's unique keys make
`List.lookup` agree with dict access).  The four configuration sources
are the raw inputs of `__init__`: parsed command-line options, the two
properties files, and `environ.copy()`. -/

/-- `MissingArgumentError(argument, description)`. -/
structure MissingArgumentError where
  argument : String
  description : String
deriving DecidableEq, Repr

/-- The `_properties` class table: configuration keys and their
descriptions (descriptions abridged to the leading words of the source
strings; no proof depends on their exact text). -/
def config_properties : List (String × String) :=
  [("BITMOVIN_API_KEY", "Your API key for the Bitmovin API."),
   ("BITMOVIN_TENANT_ORG_ID", "The ID of the Organisation in which you want to perform the encoding."),
   ("HTTP_INPUT_HOST", "Hostname or IP address of the HTTP server hosting your input files"),
   ("HTTP_INPUT_FILE_PATH", "The path to your Http input file."),
   ("HTTP_INPUT_FILE_PATH_STEREO_SOUND", "The path to a file containing a video with a single audio stereo stream."),
   ("HTTP_INPUT_FILE_PATH_SURROUND_SOUND", "The path and filename for a file containing a video with a 5.1 audio stream."),
   ("HTTP_INPUT_FILE_PATH_MULTIPLE_MONO_AUDIO_TRACKS", "The path to a file containing a video with multiple mono audio tracks."),
   ("HTTP_INPUT_FILE_PATH_TWO_STEREO_TRACKS", "The path to a file containing a video with 2 stereo tracks."),
   ("HTTP_INPUT_BUMPER_FILE_PATH", "The path to your input file on the provided HTTP server to be concatenated before HTTP_INPUT_FILE_PATH"),
   ("HTTP_INPUT_PROMO_FILE_PATH", "The path to your input file on the provided HTTP server to be concatenated after HTTP_INPUT_FILE_PATH"),
   ("S3_OUTPUT_BUCKET_NAME", "The name of your S3 output bucket."),
   ("S3_OUTPUT_ACCESS_KEY", "The access key of your S3 output bucket."),
   ("S3_OUTPUT_SECRET_KEY", "The secret key of your S3 output bucket."),
   ("S3_OUTPUT_BASE_PATH", "The base path on your S3 output bucket."),
   ("WATERMARK_IMAGE_PATH", "The path to the watermark image."),
   ("TEXT_FILTER_TEXT", "The text to be displayed by the text filter."),
   ("DRM_KEY", "16 byte encryption key, represented as 32 hexadecimal characters"),
   ("DRM_FAIRPLAY_IV", "16 byte initialization vector, represented as 32 hexadecimal characters"),
   ("DRM_FAIRPLAY_URI", "URI of the licensing server"),
   ("DRM_WIDEVINE_KID", "16 byte encryption key id, represented as 32 hexadecimal characters"),
   ("DRM_WIDEVINE_PSSH", "Base64 encoded PSSH payload")]

/-- `_get_dict_with_set_values(dictionary)`: keep only entries whose
value is truthy, i.e. a non-empty string. -/
def get_dict_with_set_values (d : List (String × String)) : List (String × String) :=
  d.filter (fun kv => !(kv.2 == ""))

/-- The raw external inputs of `ConfigProvider.__init__`: the
command-line options, the contents of the two properties files, and the
environment. -/
structure ConfigProvider where
  cli : List (String × String)
  local_props : List (String × String)
  env_vars : List (String × String)
  home_props : List (String × String)
deriving DecidableEq, Repr

/-- `self.configuration` as built by `__init__`: CLI options and both
properties files pass through `_get_dict_with_set_values` (via
`_parse_cli_arguments` / `_parse_properties_file`), while
`environ.copy()` is stored unfiltered. -/
def ConfigProvider.configuration (c : ConfigProvider) : List (String × List (String × String)) :=
  [("Command line arguments", get_dict_with_set_values c.cli),
   ("Local properties file", get_dict_with_set_values c.local_props),
   ("Environment variables", c.env_vars),
   ("System-wide properties file", get_dict_with_set_values c.home_props)]

/-- The `for configuration_key in self.configuration:` search of
`_get_or_throw_exception`: the first source containing the key yields
its value. -/
def lookup_in_sources (key : String) : List (String × List (String × String)) → Option String
  | [] => none
  | (_, sub_config) :: rest =>
    match sub_config.lookup key with
    | some value => some value
    | none => lookup_in_sources key rest

/-- The `MissingArgumentError` raised by `_get_or_throw_exception`: the key
itself plus its description from `_properties` (or a generic one). -/
def missing_key_error (key : String) : MissingArgumentError :=
  match config_properties.lookup key with
  | some descr => { argument := key, description := descr }
  | none =>
    { argument := key
      description := "Configuration Parameter " ++ "\x27" ++ key ++ "\x27" }

/-- `_get_or_throw_exception(key)`: return the first source's value, or
raise `MissingArgumentError` carrying the key and a description. -/
def get_or_throw_exception (c : ConfigProvider) (key : String) :
    Except MissingArgumentError String :=
  match lookup_in_sources key (ConfigProvider.configuration c) with
  | some value => Except.ok value
  | none => Except.error (missing_key_error key)

/-- `get_s3_output_base_path()` on the character list of the configured
value: drop one leading `/` if present (`s[1:]`), then append a trailing
`/` if absent. -/
def get_s3_output_base_path (s : List Char) : List Char :=
  let s1 := if s.head? = some '/' then s.tail else s
  if s1.getLast? = some '/' then s1 else s1 ++ ['/']

/-! ## Abstractions used to state the claims -/

/-- How the start phase may change one job: either it is untouched, or it
was `WAITING` and went through the body of the `_start_encodings` loop. -/
def Rstart (a b : EncodingJob) : Prop :=
  b = a ∨ (a.status = EncodingJobStatus.WAITING ∧ ∃ new_id r, b = start_one a new_id r)

/-- How the poll pass may change one job: either it is untouched, or it
was `STARTED` and went through `_update_encoding_job`. -/
def Rpoll (a b : EncodingJob) : Prop :=
  b = a ∨ (a.status = EncodingJobStatus.STARTED ∧ ∃ t, b = update_encoding_job a t)

/-- How one whole loop iteration may change one job: a start step
followed by a poll step. -/
def Rloop (a c : EncodingJob) : Prop :=
  ∃ b, Rstart a b ∧ Rpoll b c

/-- The status transitions the code actually performs (per mutation):
staying put, `WAITING → STARTED`, `WAITING → GIVEN_UP` (three failed
start calls), and `STARTED → SUCCESSFUL | GIVEN_UP | WAITING`. -/
def edge_ok : EncodingJobStatus → EncodingJobStatus → Bool
  | EncodingJobStatus.WAITING, EncodingJobStatus.WAITING => true
  | EncodingJobStatus.WAITING, EncodingJobStatus.STARTED => true
  | EncodingJobStatus.WAITING, EncodingJobStatus.GIVEN_UP => true
  | EncodingJobStatus.STARTED, EncodingJobStatus.STARTED => true
  | EncodingJobStatus.STARTED, EncodingJobStatus.SUCCESSFUL => true
  | EncodingJobStatus.STARTED, EncodingJobStatus.GIVEN_UP => true
  | EncodingJobStatus.STARTED, EncodingJobStatus.WAITING => true
  | EncodingJobStatus.SUCCESSFUL, EncodingJobStatus.SUCCESSFUL => true
  | EncodingJobStatus.GIVEN_UP, EncodingJobStatus.GIVEN_UP => true
  | _, _ => false

/-- The status transitions claimed by the spec: staying put,
`WAITING → STARTED`, and `STARTED → SUCCESSFUL | GIVEN_UP | WAITING`
(no `WAITING → GIVEN_UP` edge). -/
def claimed_edge_ok (a b : EncodingJobStatus) : Bool :=
  a == b ||
    (match a, b with
     | EncodingJobStatus.WAITING, EncodingJobStatus.STARTED => true
     | EncodingJobStatus.STARTED, EncodingJobStatus.SUCCESSFUL => true
     | EncodingJobStatus.STARTED, EncodingJobStatus.GIVEN_UP => true
     | EncodingJobStatus.STARTED, EncodingJobStatus.WAITING => true
     | _, _ => false)

/-- Terminal job statuses. -/
def is_terminal (s : EncodingJobStatus) : Bool :=
  s == EncodingJobStatus.SUCCESSFUL || s == EncodingJobStatus.GIVEN_UP

/-- Position by position, every job that is terminal before is completely
unchanged after. -/
def terminal_preserved (before after : List EncodingJob) : Bool :=
  (before.zip after).all (fun p => !(is_terminal p.1.status) || (p.1 == p.2))

/-- Position by position, every job that is `WAITING` after was `WAITING`
or `STARTED` before (a terminal job never reverts to `WAITING`). -/
def waiting_origin (before after : List EncodingJob) : Bool :=
  (before.zip after).all (fun p =>
    !(p.2.status == EncodingJobStatus.WAITING) ||
      (p.1.status == EncodingJobStatus.WAITING || p.1.status == EncodingJobStatus.STARTED))

/-- `True` when an `ok` result, and for an `error` result whether the
raised `MissingArgumentError` names the requested key. -/
def error_names_key : Except MissingArgumentError String → String → Bool
  | Except.error e, key => e.argument == key
  | Except.ok _, _ => true

/-- Modelled from the spec: look a key up in one raw source, counting
only a non-empty value as a hit ("first source that defines a non-empty
value wins"). -/
def lookup_nonempty_raw (src : List (String × String)) (key : String) : Option String :=
  match src.lookup key with
  | some v => if v = "" then none else some v
  | none => none

/-- Modelled from the spec: resolution as the claim describes it - the
four sources in priority order, the first one defining a NON-EMPTY value
for the key wins, and a `MissingArgumentError` naming the key otherwise. -/
def resolve_by_spec (c : ConfigProvider) (key : String) :
    Except MissingArgumentError String :=
  match lookup_nonempty_raw c.cli key with
  | some v => Except.ok v
  | none =>
    match lookup_nonempty_raw c.local_props key with
    | some v => Except.ok v
    | none =>
      match lookup_nonempty_raw c.env_vars key with
      | some v => Except.ok v
      | none =>
        match lookup_nonempty_raw c.home_props key with
        | some v => Except.ok v
        | none => Except.error (missing_key_error key)

/-- Lookup in a source after dropping its empty-valued entries, as the
stored CLI and properties-file sources do. -/
def lookup_filtered (src : List (String × String)) (key : String) : Option String :=
  (get_dict_with_set_values src).lookup key

/-- Resolution as the code actually behaves, in spec style: command-line
flags, local properties file, environment variables, home properties
file, in that order; CLI and the two properties files count only
non-empty values, the environment is consulted as-is (an empty-string
environment variable wins); a `MissingArgumentError` naming the key is
raised when no source defines the key. -/
def resolve_amended (c : ConfigProvider) (key : String) :
    Except MissingArgumentError String :=
  match lookup_filtered c.cli key with
  | some v => Except.ok v
  | none =>
    match lookup_filtered c.local_props key with
    | some v => Except.ok v
    | none =>
      match c.env_vars.lookup key with
      | some v => Except.ok v
      | none =>
        match lookup_filtered c.home_props key with
        | some v => Except.ok v
        | none => Except.error (missing_key_error key)

/-! ## Concrete fixtures (used by counterexamples and witnesses) -/

/-- A freshly constructed job, as `JobDispatcher.__init__` creates it. -/
def job_waiting : EncodingJob :=
  EncodingJob.init "videos/1080p_Sintel.mp4" "videos/1080p_Sintel.mp4/encoding1" "encoding1"

/-- A `WAITING` job whose two previous start calls failed
(`retry_count = 2 = max_retries`). -/
def job_waiting_retried : EncodingJob :=
  { job_waiting with retry_count := 2, encoding_id := "enc-1" }

/-- A `STARTED` job with `retry_count = n`. -/
def job_started (n : Nat) : EncodingJob :=
  { job_waiting with
      status := EncodingJobStatus.STARTED
      retry_count := n
      encoding_id := "enc-1" }

/-- A job that already finished successfully. -/
def job_successful : EncodingJob :=
  { job_waiting with status := EncodingJobStatus.SUCCESSFUL, encoding_id := "enc-1" }

/-- A polled task reporting a retryable encoding error. -/
def retryable_error_task : Task :=
  { status := TaskStatus.ERROR
    error := some { retry_hint := RetryHint.RETRY }
    messages := [{ typ := MessageType.ERROR, text := "encoding failed" }] }

/-- A polled task reporting a permanent (`NO_RETRY`) encoding error. -/
def no_retry_task : Task :=
  { status := TaskStatus.ERROR
    error := some { retry_hint := RetryHint.NO_RETRY }
    messages := [{ typ := MessageType.INFO, text := "starting" },
                 { typ := MessageType.ERROR, text := "bad input" }] }

/-- A configuration state where the environment defines
`S3_OUTPUT_BUCKET_NAME` as the empty string while the home properties
file defines a non-empty value for it. -/
def config_with_empty_env : ConfigProvider :=
  { cli := []
    local_props := []
    env_vars := [("S3_OUTPUT_BUCKET_NAME", "")]
    home_props := [("S3_OUTPUT_BUCKET_NAME", "my-bucket")] }

/-! ## Infrastructure lemmas -/

lemma Rstart_refl (a : EncodingJob) : Rstart a a := Or.inl rfl

lemma Rpoll_refl (a : EncodingJob) : Rpoll a a := Or.inl rfl

lemma forall2_rstart_refl (l : List EncodingJob) : List.Forall₂ Rstart l l :=
  List.forall₂_same.2 (fun a _ => Rstart_refl a)

lemma forall2_rpoll_refl (l : List EncodingJob) : List.Forall₂ Rpoll l l :=
  List.forall₂_same.2 (fun a _ => Rpoll_refl a)

lemma forall2_comp {α : Type} {R S : α → α → Prop} :
    ∀ {l m n : List α}, List.Forall₂ R l m → List.Forall₂ S m n →
      List.Forall₂ (fun a c => ∃ b, R a b ∧ S b c) l n := by
  intro l m n h1 h2
  induction h1 generalizing n with
  | nil => cases h2; exact List.Forall₂.nil
  | cons hab h1' ih =>
    cases h2 with
    | cons hbc h2' => exact List.Forall₂.cons ⟨_, hab, hbc⟩ (ih h2')

lemma start_phase_rel (jobs : List EncodingJob) :
    ∀ (budget : Nat) (env : List (String × StartOutcome)),
      List.Forall₂ Rstart jobs (start_phase budget env jobs) := by
  induction jobs with
  | nil => intro budget env; simp [start_phase]
  | cons job rest ih =>
    intro budget env
    by_cases h : job.status = EncodingJobStatus.WAITING
    · cases budget with
      | zero =>
        simp only [start_phase, h, if_true]
        exact forall2_rstart_refl _
      | succ b =>
        cases env with
        | nil =>
          simp only [start_phase, h, if_true]
          exact forall2_rstart_refl _
        | cons kv env2 =>
          obtain ⟨new_id, r⟩ := kv
          simp only [start_phase, h, if_true]
          by_cases hq : is_queue_limit r = true
          · simp only [hq, if_true]
            exact List.Forall₂.cons (Or.inr ⟨h, new_id, r, rfl⟩) (forall2_rstart_refl _)
          · simp only [hq, if_false, Bool.false_eq_true]
            exact List.Forall₂.cons (Or.inr ⟨h, new_id, r, rfl⟩) (ih b env2)
    · simp only [start_phase, h, if_false]
      exact List.Forall₂.cons (Rstart_refl _) (ih budget env)

lemma poll_phase_rel (jobs : List EncodingJob) :
    ∀ (tasks : List Task), List.Forall₂ Rpoll jobs (poll_phase tasks jobs) := by
  induction jobs with
  | nil => intro tasks; simp [poll_phase]
  | cons job rest ih =>
    intro tasks
    by_cases h : job.status = EncodingJobStatus.STARTED
    · cases tasks with
      | nil =>
        simp only [poll_phase, h, if_true]
        exact List.Forall₂.cons (Rpoll_refl _) (ih [])
      | cons t ts =>
        simp only [poll_phase, h, if_true]
        exact List.Forall₂.cons (Or.inr ⟨h, t, rfl⟩) (ih ts)
    · simp only [poll_phase, h, if_false]
      exact List.Forall₂.cons (Rpoll_refl _) (ih tasks)

lemma loop_iteration_rel (queued : Nat) (env : List (String × StartOutcome))
    (tasks : List Task) (jobs : List EncodingJob) :
    List.Forall₂ Rloop jobs (loop_iteration queued env tasks jobs) := by
  unfold loop_iteration
  by_cases h : 0 < target_queue_size - queued
  · simp only [h, if_true]
    exact (forall2_comp (start_phase_rel jobs _ _) (poll_phase_rel _ _)).imp
      (fun a c hc => hc)
  · simp only [h, if_false]
    exact (forall2_comp (forall2_rstart_refl jobs) (poll_phase_rel _ _)).imp
      (fun a c hc => hc)

lemma rloop_terminal {a c : EncodingJob} (h : Rloop a c)
    (ht : is_terminal a.status = true) : c = a := by
  obtain ⟨b, hab, hbc⟩ := h
  have hb : b = a := by
    rcases hab with hba | ⟨hw, _⟩
    · exact hba
    · rw [hw] at ht; simp [is_terminal] at ht
  subst hb
  rcases hbc with hcb | ⟨hs, _⟩
  · exact hcb
  · rw [hs] at ht; simp [is_terminal] at ht

lemma rloop_waiting_origin {a c : EncodingJob} (h : Rloop a c)
    (hc : c.status = EncodingJobStatus.WAITING) :
    a.status = EncodingJobStatus.WAITING ∨ a.status = EncodingJobStatus.STARTED := by
  obtain ⟨b, hab, hbc⟩ := h
  rcases hbc with hcb | ⟨hs, _⟩
  · subst hcb
    rcases hab with hba | ⟨hw, _⟩
    · subst hba; exact Or.inl hc
    · exact Or.inl hw
  · rcases hab with hba | ⟨hw, _⟩
    · subst hba; exact Or.inr hs
    · exact Or.inl hw

lemma forall2_terminal_preserved :
    ∀ {l m : List EncodingJob},
      List.Forall₂ (fun a c => is_terminal a.status = true → c = a) l m →
      terminal_preserved l m = true := by
  intro l m h
  induction h with
  | nil => rfl
  | cons hac h2 ih =>
    rename_i a c l2 m2
    simp only [terminal_preserved, List.zip_cons_cons, List.all_cons, Bool.and_eq_true]
    refine ⟨?_, ih⟩
    by_cases ht : is_terminal a.status = true
    · simp [ht, hac ht]
    · simp [Bool.not_eq_true] at ht
      simp [ht]

lemma forall2_waiting_origin :
    ∀ {l m : List EncodingJob},
      List.Forall₂ (fun a c =>
        c.status = EncodingJobStatus.WAITING →
          a.status = EncodingJobStatus.WAITING ∨ a.status = EncodingJobStatus.STARTED) l m →
      waiting_origin l m = true := by
  intro l m h
  induction h with
  | nil => rfl
  | cons hac h2 ih =>
    rename_i a c l2 m2
    simp only [waiting_origin, List.zip_cons_cons, List.all_cons, Bool.and_eq_true]
    refine ⟨?_, ih⟩
    by_cases hw : c.status = EncodingJobStatus.WAITING
    · rcases hac hw with h1 | h1 <;> simp [h1]
    · simp [hw]

lemma start_one_status (job : EncodingJob) (new_id : String) (r : StartOutcome) :
    (start_one job new_id r).status = EncodingJobStatus.STARTED ∨
    (start_one job new_id r).status = job.status ∨
    (start_one job new_id r).status = EncodingJobStatus.GIVEN_UP := by
  cases r with
  | ok =>
    left
    simp [start_one, assign_encoding_id]
  | err code msg =>
    right
    by_cases h8 : code = 8004
    · left
      simp only [start_one, assign_encoding_id, h8, if_true]
      split <;> rfl
    · simp only [start_one, assign_encoding_id, h8, if_false]
      split <;> split <;> simp

lemma update_encoding_job_status (job : EncodingJob) (t : Task) :
    (update_encoding_job job t).status = EncodingJobStatus.SUCCESSFUL ∨
    (update_encoding_job job t).status = EncodingJobStatus.GIVEN_UP ∨
    (update_encoding_job job t).status = EncodingJobStatus.WAITING ∨
    (update_encoding_job job t).status = job.status := by
  unfold update_encoding_job
  split_ifs <;> simp

/-! ## Claim theorems -/

/-- C1 (amended): every status mutation of the dispatch/poll loop moves
along `WAITING → STARTED`, `WAITING → GIVEN_UP` (start call failed with
the retry budget exhausted), `STARTED → SUCCESSFUL`,
`STARTED → GIVEN_UP`, or `STARTED → WAITING`, or leaves the status
unchanged; and one full loop iteration leaves every `SUCCESSFUL` or
`GIVEN_UP` job completely untouched. -/
theorem c1_status_transitions :
    (∀ (job : EncodingJob) (new_id : String) (r : StartOutcome),
        job.status = EncodingJobStatus.WAITING →
        edge_ok job.status (start_one job new_id r).status = true) ∧
    (∀ (job : EncodingJob) (t : Task),
        job.status = EncodingJobStatus.STARTED →
        edge_ok job.status (update_encoding_job job t).status = true) ∧
    (∀ (queued : Nat) (env : List (String × StartOutcome)) (tasks : List Task)
        (jobs : List EncodingJob),
        terminal_preserved jobs (loop_iteration queued env tasks jobs) = true) := by
  refine ⟨?_, ?_, ?_⟩
  · intro job new_id r h
    rcases start_one_status job new_id r with h1 | h1 | h1 <;> rw [h1, h] <;> decide
  · intro job t h
    rcases update_encoding_job_status job t with h1 | h1 | h1 | h1 <;> rw [h1, h] <;> decide
  · intro queued env tasks jobs
    exact forall2_terminal_preserved
      ((loop_iteration_rel queued env tasks jobs).imp
        (fun a c hc ht => rloop_terminal hc ht))

/-- C1 witness: the three parts of `c1_status_transitions` applied to a
successful start of a fresh job, a retryable poll error of a started
job, and a loop iteration over an already-successful job. -/
theorem c1_status_transitions_witness :
    edge_ok job_waiting.status (start_one job_waiting "enc-1" StartOutcome.ok).status = true ∧
    edge_ok (job_started 0).status
      (update_encoding_job (job_started 0) retryable_error_task).status = true ∧
    terminal_preserved [job_successful] (loop_iteration 0 [] [] [job_successful]) = true :=
  ⟨c1_status_transitions.1 job_waiting "enc-1" StartOutcome.ok rfl,
   c1_status_transitions.2.1 (job_started 0) retryable_error_task rfl,
   c1_status_transitions.2.2 0 [] [] [job_successful]⟩

/-- C1 counterexample: a `WAITING` job whose start call fails with a
non-8004 error after `max_retries` earlier failures moves directly from
`WAITING` to `GIVEN_UP` in the dispatch/poll loop, an edge the claim
does not allow. -/
theorem c1_claimed_edges_violated :
    job_waiting_retried.status = EncodingJobStatus.WAITING ∧
    (loop_iteration 0 [("enc-1", StartOutcome.err 500 "internal error")] []
        [job_waiting_retried]).map EncodingJob.status = [EncodingJobStatus.GIVEN_UP] ∧
    claimed_edge_ok EncodingJobStatus.WAITING EncodingJobStatus.GIVEN_UP = false := by
  decide

/-- C4 (amended): within one iteration of the dispatch/poll loop, any
job that ends up `WAITING` was `WAITING` or `STARTED` at the start of
the iteration: a `STARTED` job can revert to `WAITING` (retryable error
within budget), but a `SUCCESSFUL` or `GIVEN_UP` job never does. -/
theorem c4_waiting_only_from_waiting_or_started :
    ∀ (queued : Nat) (env : List (String × StartOutcome)) (tasks : List Task)
      (jobs : List EncodingJob),
      waiting_origin jobs (loop_iteration queued env tasks jobs) = true := by
  intro queued env tasks jobs
  exact forall2_waiting_origin
    ((loop_iteration_rel queued env tasks jobs).imp
      (fun a c hc hw => rloop_waiting_origin hc hw))

/-- C4 counterexample: a `STARTED` job polled with a retryable error
while its retry budget is not exhausted is reset to `WAITING` by the
poll pass, so a job that has left `WAITING` can return to it. -/
theorem c4_started_reverts_to_waiting :
    (job_started 0).status = EncodingJobStatus.STARTED ∧
    (loop_iteration target_queue_size [] [retryable_error_task]
        [job_started 0]).map EncodingJob.status = [EncodingJobStatus.WAITING] := by
  decide

/-- C2: the code at the claimed scenario. A `STARTED` job with
`retry_count = 2 = max_retries` (already retried twice) that fails with
a retryable error is NOT marked `GIVEN_UP` on this third failure: the
poll handler checks `retry_count > max_retries` before incrementing, so
it resets the job to `WAITING` with `retry_count = 3`, the dispatcher
offers it for starting again, and only a fourth failure gives up. -/
theorem c2_retry_budget_off_by_one :
    update_encoding_job (job_started 2) retryable_error_task =
      { job_started 2 with retry_count := 3, status := EncodingJobStatus.WAITING } ∧
    (update_encoding_job (job_started 2) retryable_error_task).status ≠
      EncodingJobStatus.GIVEN_UP ∧
    JobDispatcher.get_jobs_to_start
      ⟨[update_encoding_job (job_started 2) retryable_error_task]⟩ 1 =
      [update_encoding_job (job_started 2) retryable_error_task] ∧
    max_retries < (update_encoding_job (job_started 2) retryable_error_task).retry_count ∧
    (update_encoding_job (job_started 3) retryable_error_task).status =
      EncodingJobStatus.GIVEN_UP := by
  decide

/-- C3: the code at the constructor. `JobDispatcher.__init__` sets
`number_of_encodings = 7` but iterates `range(1, 7)`, so it creates only
6 jobs (named `encoding1` to `encoding6`); each job does start `WAITING`
with empty `encoding_id`, `retry_count` 0 and no error messages. -/
theorem c3_dispatcher_creates_six_jobs :
    number_of_encodings = 7 ∧
    (JobDispatcher.init "videos/1080p_Sintel.mp4").encoding_jobs.length = 6 ∧
    (JobDispatcher.init "videos/1080p_Sintel.mp4").encoding_jobs.all
      (fun job =>
        decide (job.status = EncodingJobStatus.WAITING) &&
        decide (job.encoding_id = "") &&
        decide (job.retry_count = 0) &&
        decide (job.error_messages = [])) = true := by
  decide

/-- C5: a start call failing with error code 8004 (platform queue limit
exceeded) aborts the start batch at once: the failing job keeps its
status, `retry_count` and `error_messages` (only a fresh `encoding_id`
may have been assigned before the call), and none of the remaining jobs
of the batch is touched in that iteration. -/
theorem c5_queue_limit_aborts_batch :
    ∀ (job : EncodingJob) (rest : List EncodingJob) (b : Nat)
      (new_id msg : String) (env : List (String × StartOutcome)),
      job.status = EncodingJobStatus.WAITING →
      start_phase (b + 1) ((new_id, StartOutcome.err 8004 msg) :: env) (job :: rest) =
        assign_encoding_id job new_id :: rest ∧
      (assign_encoding_id job new_id).status = job.status ∧
      (assign_encoding_id job new_id).retry_count = job.retry_count ∧
      (assign_encoding_id job new_id).error_messages = job.error_messages := by
  intro job rest b new_id msg env h
  refine ⟨?_, ?_, ?_, ?_⟩
  · simp [start_phase, h, is_queue_limit, start_one]
  · unfold assign_encoding_id; split <;> rfl
  · unfold assign_encoding_id; split <;> rfl
  · unfold assign_encoding_id; split <;> rfl

/-- C5 witness: `c5_queue_limit_aborts_batch` at a fresh `WAITING` job
followed by another job, with budget 3. -/
theorem c5_queue_limit_aborts_batch_witness :
    start_phase 3 [("id-1", StartOutcome.err 8004 "limit")] [job_waiting, job_waiting] =
      assign_encoding_id job_waiting "id-1" :: [job_waiting] ∧
    (assign_encoding_id job_waiting "id-1").status = job_waiting.status ∧
    (assign_encoding_id job_waiting "id-1").retry_count = job_waiting.retry_count ∧
    (assign_encoding_id job_waiting "id-1").error_messages = job_waiting.error_messages :=
  c5_queue_limit_aborts_batch job_waiting [job_waiting] 2 "id-1" "limit" [] rfl

/-- C6: `get_jobs_to_start(limit)` returns at most `limit` jobs, only
`WAITING` ones, and as a sublist of the dispatcher's job list (so in the
original FIFO order). -/
theorem c6_get_jobs_to_start_spec :
    ∀ (d : JobDispatcher) (limit : Nat),
      (d.get_jobs_to_start limit).length ≤ limit ∧
      (d.get_jobs_to_start limit).all
        (fun job => job.status == EncodingJobStatus.WAITING) = true ∧
      (d.get_jobs_to_start limit).Sublist d.encoding_jobs := by
  intro d limit
  unfold JobDispatcher.get_jobs_to_start
  refine ⟨List.length_take_le _ _, ?_, (List.take_sublist _ _).trans (List.filter_sublist _)⟩
  refine List.all_eq_true.2 (fun job hmem => ?_)
  have h1 : job ∈ List.filter (fun j => j.status == EncodingJobStatus.WAITING)
      d.encoding_jobs := List.mem_of_mem_take hmem
  have h2 := List.of_mem_filter h1
  exact h2

/-- C7: `all_jobs_finished()` is true exactly when every job's status is
`SUCCESSFUL` or `GIVEN_UP`. -/
theorem c7_all_jobs_finished_iff :
    ∀ d : JobDispatcher,
      d.all_jobs_finished = true ↔
        ∀ job ∈ d.encoding_jobs,
          job.status = EncodingJobStatus.SUCCESSFUL ∨
          job.status = EncodingJobStatus.GIVEN_UP := by
  intro d
  unfold JobDispatcher.all_jobs_finished
  rw [beq_iff_eq, List.length_eq_zero, List.filter_eq_nil_iff]
  constructor
  · intro h job hm
    have hh := h job hm
    revert hh
    cases job.status <;> simp
  · intro h job hm
    have hh := h job hm
    revert hh
    cases job.status <;> simp

/-- C7 witness: `c7_all_jobs_finished_iff` at the freshly constructed
dispatcher. -/
theorem c7_all_jobs_finished_iff_witness :
    (JobDispatcher.init "videos/1080p_Sintel.mp4").all_jobs_finished = true ↔
      ∀ job ∈ (JobDispatcher.init "videos/1080p_Sintel.mp4").encoding_jobs,
        job.status = EncodingJobStatus.SUCCESSFUL ∨
        job.status = EncodingJobStatus.GIVEN_UP :=
  c7_all_jobs_finished_iff (JobDispatcher.init "videos/1080p_Sintel.mp4")

/-- C8: polling an `ERROR` task classified non-retryable (no error
object, or retry hint `NO_RETRY`) marks the job `GIVEN_UP` regardless of
its retry count and appends the task's ERROR-type message texts to the
job's `error_messages`. -/
theorem c8_nonretryable_gives_up :
    ∀ (job : EncodingJob) (t : Task),
      t.status = TaskStatus.ERROR →
      (t.error = none ∨ ∃ e, t.error = some e ∧ e.retry_hint = RetryHint.NO_RETRY) →
      update_encoding_job job t =
        { job with
            status := EncodingJobStatus.GIVEN_UP
            error_messages := job.error_messages ++
              [ErrorEntry.texts (get_error_messages (some t))] } := by
  intro job t hs hnr
  have hret : is_retryable_error t = false := by
    unfold is_retryable_error
    rcases hnr with h | ⟨e, he, hh⟩
    · simp [hs, h]
    · simp [hs, he, hh]
  unfold update_encoding_job
  rw [hs]
  simp [hret]

/-- C8 witness: `c8_nonretryable_gives_up` at a started job with one
previous retry and a `NO_RETRY` error task. -/
theorem c8_nonretryable_gives_up_witness :
    update_encoding_job (job_started 1) no_retry_task =
      { job_started 1 with
          status := EncodingJobStatus.GIVEN_UP
          error_messages := (job_started 1).error_messages ++
            [ErrorEntry.texts (get_error_messages (some no_retry_task))] } :=
  c8_nonretryable_gives_up (job_started 1) no_retry_task rfl
    (Or.inr ⟨{ retry_hint := RetryHint.NO_RETRY }, rfl, rfl⟩)

/-- C9 (amended): configuration resolution tries command-line flags, the
local properties file, environment variables and the home properties
file in that order; the CLI and the two properties files count only
non-empty values, but the environment is consulted as-is, so an
empty-string environment variable wins; when no source defines the key,
the raised `MissingArgumentError` names the missing parameter. -/
theorem c9_resolution_order :
    ∀ (c : ConfigProvider) (key : String),
      get_or_throw_exception c key = resolve_amended c key ∧
      error_names_key (get_or_throw_exception c key) key = true := by
  intro c key
  constructor
  · simp only [get_or_throw_exception, ConfigProvider.configuration, lookup_in_sources,
      resolve_amended, lookup_filtered]
    cases h1 : (get_dict_with_set_values c.cli).lookup key with
    | some v => simp [h1]
    | none =>
      simp only [h1]
      cases h2 : (get_dict_with_set_values c.local_props).lookup key with
      | some v => simp [h2]
      | none =>
        simp only [h2]
        cases h3 : c.env_vars.lookup key with
        | some v => simp [h3]
        | none =>
          simp only [h3]
          cases h4 : (get_dict_with_set_values c.home_props).lookup key with
          | some v => simp [h4]
          | none => simp [h4]
  · cases hr : get_or_throw_exception c key with
    | ok v => simp [error_names_key]
    | error e =>
      have he : e = missing_key_error key := by
        unfold get_or_throw_exception at hr
        cases hl : lookup_in_sources key (ConfigProvider.configuration c) with
        | some v => rw [hl] at hr; exact absurd hr (by simp)
        | none =>
          rw [hl] at hr
          injection hr with h
          exact h.symm
      subst he
      simp only [error_names_key, missing_key_error]
      cases hk : config_properties.lookup key <;> simp [hk]

/-- C9 counterexample: with no CLI flags, no properties files, the
environment defining `S3_OUTPUT_BUCKET_NAME` as the empty string and the
home properties file defining it as `my-bucket`, the claim says the
first source with a non-empty value (the home file, `my-bucket`) wins,
but the code returns the empty environment value. -/
theorem c9_empty_env_wins :
    resolve_by_spec config_with_empty_env "S3_OUTPUT_BUCKET_NAME" =
      Except.ok "my-bucket" ∧
    get_or_throw_exception config_with_empty_env "S3_OUTPUT_BUCKET_NAME" =
      Except.ok "" ∧
    get_or_throw_exception config_with_empty_env "S3_OUTPUT_BUCKET_NAME" ≠
      resolve_by_spec config_with_empty_env "S3_OUTPUT_BUCKET_NAME" := by
  refine ⟨rfl, rfl, ?_⟩
  intro h
  rw [show get_or_throw_exception config_with_empty_env "S3_OUTPUT_BUCKET_NAME" =
        Except.ok "" from rfl,
      show resolve_by_spec config_with_empty_env "S3_OUTPUT_BUCKET_NAME" =
        Except.ok "my-bucket" from rfl] at h
  simp at h

/-- C10: `get_s3_output_base_path` always returns a value ending in `/`:
it removes a single leading `/` when present and appends a trailing `/`
when absent. -/
theorem c10_s3_base_path_normalization :
    ∀ s : List Char,
      (get_s3_output_base_path s).getLast? = some '/' ∧
      (s.head? = some '/' →
        get_s3_output_base_path s =
          (if s.tail.getLast? = some '/' then s.tail else s.tail ++ ['/'])) ∧
      (¬ s.head? = some '/' →
        get_s3_output_base_path s =
          (if s.getLast? = some '/' then s else s ++ ['/'])) := by
  intro s
  refine ⟨?_, ?_, ?_⟩
  · simp only [get_s3_output_base_path]
    split_ifs <;> first | assumption | exact List.getLast?_concat _
  · intro h
    simp [get_s3_output_base_path, h]
  · intro h
    simp [get_s3_output_base_path, h]

/-- C10 witness: `c10_s3_base_path_normalization` at the configured
value `/outputs`: the leading slash is dropped, a trailing slash is
appended, and the result ends in `/`. -/
theorem c10_s3_base_path_normalization_witness :
    (get_s3_output_base_path "/outputs".toList).getLast? = some '/' ∧
    get_s3_output_base_path "/outputs".toList =
      (if "/outputs".toList.tail.getLast? = some '/' then "/outputs".toList.tail
       else "/outputs".toList.tail ++ ['/']) :=
  ⟨(c10_s3_base_path_normalization "/outputs".toList).1,
   (c10_s3_base_path_normalization "/outputs".toList).2.1 (by decide)⟩

end Bitmovin
